import Mathlib

/-!
Verification of the open-webui pyodide execution-and-package-caching subsystem.

This file gives a shallow embedding of the relevant TypeScript functions:

* the worker module (pyodide worker): `fetchPyodidePackagesWorker`,
  `preloadPackages` (batch installation loop, fetch-wrapper installation),
  `executeCode` (the per-cell execution state machine);
* the package-manager utility module: the registry operations
  `markPackageAsLoaded` / `markPackageAsFailed`, `fetchPyodidePackagesUtil`,
  `checkMissingPackages`, `installMissingPackages`, the IndexedDB wheel cache
  `cachePackageWheel` / `getCachedPackageWheel`, and the `loadPackage` wrapper
  installed by `setupCachedPackageLoader`.

Asynchronous effects are reified: runtime calls that may fail are passed in as
`Except`-valued outcomes or boolean oracles, and the observable effects of a
function (install calls issued, messages posted, the value held by the ambient
fetch slot, registry mutations) are returned as explicit data.  JavaScript
`Set`s are modelled as duplicate-free lists, string maps as association lists,
and `ArrayBuffer` payloads as lists of bytes (`List Nat`).
-/

/-! ## PackageRegistry (utility module, first part): three name sets -/

/-- A JS `Set.add`: adds the name if not present (sets hold no duplicates). -/
def setAdd (n : String) (s : List String) : List String :=
  if n ∈ s then s else n :: s

/-- A JS `Set.delete`: removes every occurrence of the name. -/
def setDelete (n : String) (s : List String) : List String :=
  s.filter (fun x => x != n)

/-- The module-level `packageCache` object: `loaded`, `loading`, `failed`. -/
structure PackageRegistry where
  loaded : List String
  loading : List String
  failed : List String
deriving DecidableEq

/-- The initial value of `packageCache`: three empty sets. -/
def initialRegistry : PackageRegistry := ⟨[], [], []⟩

/-- Source: `isPackageLoaded` — membership test on `loaded`. -/
def isPackageLoaded (r : PackageRegistry) (n : String) : Bool :=
  n ∈ r.loaded

/-- Source: `markPackageAsLoaded` — `loading.delete(name); loaded.add(name)`.
Note that the source does not touch `failed`. -/
def markPackageAsLoaded (r : PackageRegistry) (n : String) : PackageRegistry :=
  { r with loading := setDelete n r.loading, loaded := setAdd n r.loaded }

/-- Source: `markPackageAsFailed` — `loading.delete(name); failed.add(name)`. -/
def markPackageAsFailed (r : PackageRegistry) (n : String) : PackageRegistry :=
  { r with loading := setDelete n r.loading, failed := setAdd n r.failed }

/-- The registry operations exported by the source module.  No operation in
the source ever adds a name to `loading`. -/
inductive RegOp where
  | mLoaded (n : String)
  | mFailed (n : String)
deriving DecidableEq

/-- Apply one registry operation. -/
def applyRegOp (r : PackageRegistry) : RegOp → PackageRegistry
  | .mLoaded n => markPackageAsLoaded r n
  | .mFailed n => markPackageAsFailed r n

/-- Apply a sequence of registry operations in order. -/
def applyRegOps (ops : List RegOp) (r : PackageRegistry) : PackageRegistry :=
  ops.foldl applyRegOp r

/-! ## WheelCacheStore: the IndexedDB object store keyed by `name` -/

/-- Raw bytes of an `ArrayBuffer`. -/
abbrev Wheel := List Nat

/-- One record of the `package-wheels` object store (`PackageWheelCache`). -/
structure WheelRecord where
  name : String
  url : String
  data : Wheel
  timestamp : Nat
deriving DecidableEq

/-- The object store contents; `keyPath: 'name'` keeps at most one record per
name, which `storePut` maintains. -/
abbrev WheelStore := List WheelRecord

/-- `store.put` on a store with `keyPath: 'name'`: upsert keyed by name. -/
def storePut (store : WheelStore) (r : WheelRecord) : WheelStore :=
  r :: store.filter (fun x => x.name != r.name)

/-- `store.get(name)`: the record for the key, if present. -/
def storeGet (store : WheelStore) (name : String) : Option WheelRecord :=
  store.find? (fun x => x.name == name)

/-- Source: `cachePackageWheel(name, url, data)` — builds the record with the
current timestamp and `store.put`s it.  This models the success path of the
transaction (the claim conditions on a successful put); on failure the source
leaves the store unchanged. -/
def cachePackageWheel (store : WheelStore) (name url : String) (data : Wheel)
    (now : Nat) : WheelStore :=
  storePut store { name := name, url := url, data := data, timestamp := now }

/-- Source: `getCachedPackageWheel(name)` — `store.get(name)`, resolving with
`result.data` when a record exists and `null` otherwise. -/
def getCachedPackageWheel (store : WheelStore) (name : String) : Option Wheel :=
  (storeGet store name).map (fun r => r.data)

/-! ## checkMissingPackages (utility module) -/

/-- Source: `checkMissingPackages(pyodide, packages)`.  The runtime query
(`pyodide.runPythonAsync` computing the lowercased installed-module set and the
missing list, plus the `JSON.parse` of its result) is reified as `query`,
applied to the lowercased requested names; `Except.error` is any exception of
that pipeline.  A `none` input models a null/undefined `packages` argument. -/
def checkMissingPackages (query : List String → Except String (List String))
    (packages : Option (List String)) : List String :=
  match packages with
  | none => []
  | some l =>
    if l.isEmpty then []
    else
      let packageNames := l.map String.toLower
      match query packageNames with
      | .ok missing => missing
      | .error _ => l

/-! ## PackageListSource: the two `fetchPyodidePackages` implementations -/

/-- The worker module's `DEFAULT_PACKAGES` (9 entries). -/
def DEFAULT_PACKAGES_WORKER : List String :=
  ["micropip", "packaging", "requests", "beautifulsoup4", "numpy", "pandas",
   "matplotlib", "scipy", "regex"]

/-- The utility module's `DEFAULT_PACKAGES` (6 entries). -/
def DEFAULT_PACKAGES_UTIL : List String :=
  ["micropip", "packaging", "requests", "beautifulsoup4", "numpy", "pandas"]

/-- `CACHE_EXPIRY_MS` (24 hours) — both modules use the same constant. -/
def CACHE_EXPIRY_MS : Nat := 24 * 60 * 60 * 1000

/-- One list-cache entry: `{timestamp, packages}`. -/
structure ListCacheEntry where
  timestamp : Nat
  packages : List String
deriving DecidableEq

/-- Outcome of the single `fetch('/api/pyodide/packages')` request.
`netError` : the fetch itself rejects.
`response ok json` : a response with success flag `ok`;
`json = none` means `response.json()` rejects (unparseable body),
`json = some none` means the parsed object has a falsy `packages` field,
`json = some (some l)` means `data.packages` is the list `l`. -/
inductive RemoteListOutcome where
  | netError
  | response (ok : Bool) (json : Option (Option (List String)))
deriving DecidableEq

/-- Worker module `fetchPyodidePackages`: module-variable cache, freshness
test `now - timestamp < CACHE_EXPIRY_MS`; on a non-ok response it throws an
HTTP error, and every exception is caught, returning the worker default list
with the cache untouched.  On a parsed payload, `data.packages ||
DEFAULT_PACKAGES` is returned and stored as the new cache value.
Returns (result, cache value after the call). -/
def fetchPyodidePackagesWorker (cache : Option ListCacheEntry) (now : Nat)
    (outcome : RemoteListOutcome) : List String × Option ListCacheEntry :=
  match cache with
  | some c =>
    if now - c.timestamp < CACHE_EXPIRY_MS then (c.packages, cache)
    else fetchPyodidePackagesWorker.go cache now outcome
  | none => fetchPyodidePackagesWorker.go cache now outcome
where
  /-- The fetch-and-cache path shared by both branches. -/
  go (cache : Option ListCacheEntry) (now : Nat) :
      RemoteListOutcome → List String × Option ListCacheEntry
  | .netError => (DEFAULT_PACKAGES_WORKER, cache)
  | .response false _ => (DEFAULT_PACKAGES_WORKER, cache)
  | .response true none => (DEFAULT_PACKAGES_WORKER, cache)
  | .response true (some maybePkgs) =>
    let packages := maybePkgs.getD DEFAULT_PACKAGES_WORKER
    (packages, some ⟨now, packages⟩)

/-- The `localStorage` item for the utility module's list cache:
absent, present but unparseable, or a parsed `{timestamp, packages}`. -/
inductive CachedItem where
  | absent
  | malformed
  | entry (timestamp : Nat) (packages : List String)
deriving DecidableEq

/-- Utility module `fetchPyodidePackages`: reads the `localStorage` entry,
uses it when not expired (`now - timestamp > CACHE_EXPIRY_MS` is expiry) and
non-empty; otherwise fetches.  Failure handling mirrors the worker version but
with the 6-entry default list; a successful parse stores a new entry.
Returns (result, stored item after the call). -/
def fetchPyodidePackagesUtil (stored : CachedItem) (now : Nat)
    (outcome : RemoteListOutcome) : List String × CachedItem :=
  match stored with
  | .entry ts pkgs =>
    if ¬ (now - ts > CACHE_EXPIRY_MS) ∧ pkgs ≠ [] then (pkgs, stored)
    else fetchPyodidePackagesUtil.go stored now outcome
  | s => fetchPyodidePackagesUtil.go s now outcome
where
  /-- The fetch-and-cache path. -/
  go (stored : CachedItem) (now : Nat) :
      RemoteListOutcome → List String × CachedItem
  | .netError => (DEFAULT_PACKAGES_UTIL, stored)
  | .response false _ => (DEFAULT_PACKAGES_UTIL, stored)
  | .response true none => (DEFAULT_PACKAGES_UTIL, stored)
  | .response true (some maybePkgs) =>
    let packages := maybePkgs.getD DEFAULT_PACKAGES_UTIL
    (packages, .entry now packages)

/-! ## ExecutionCoordinator: `executeCode` in the worker -/

/-- Cell status values. -/
inductive Status where
  | idle
  | running
  | completed
  | error
deriving DecidableEq

/-- `CellState` — one record per execution task; `result` is the opaque value
returned by `runPythonAsync`, modelled as a string token. -/
structure CellState where
  id : String
  status : Status
  result : Option String
  stdout : String
  stderr : String
deriving DecidableEq

/-- `self.cells`: a map from id to record, as an association list. -/
abbrev Cells := List (String × CellState)

/-- Map update `self.cells[id] = c` (wholesale replacement for the key). -/
def cellsInsert (cells : Cells) (id : String) (c : CellState) : Cells :=
  (id, c) :: cells.filter (fun p => p.1 != id)

/-- Map lookup `self.cells[id]`. -/
def cellsLookup (cells : Cells) (id : String) : Option CellState :=
  (cells.find? (fun p => p.1 == id)).map (fun p => p.2)

/-- One batched output callback fired while the code runs: a chunk appended
to stdout or to stderr (each also posts a streaming message). -/
inductive Chunk where
  | out (m : String)
  | err (m : String)
deriving DecidableEq

/-- The record `executeCode` creates for `id` before running: status
`running`, null result, empty buffers. -/
def initCell (id : String) : CellState :=
  { id := id, status := .running, result := none, stdout := "", stderr := "" }

/-- Effect of one output callback on the cell record (`setStdout` /
`setStderr` handlers append to the respective buffer). -/
def chunkStep (c : CellState) : Chunk → CellState
  | .out m => { c with stdout := c.stdout ++ m }
  | .err m => { c with stderr := c.stderr ++ m }

/-- The cell record after all output callbacks have run. -/
def cellAfterChunks (id : String) (chunks : List Chunk) : CellState :=
  chunks.foldl chunkStep (initCell id)

/-- The stderr text accumulated by the callbacks, starting from `acc`. -/
def stderrAccumFrom (acc : String) : List Chunk → String
  | [] => acc
  | .out _ :: rest => stderrAccumFrom acc rest
  | .err m :: rest => stderrAccumFrom (acc ++ m) rest

/-- Messages the worker posts to the controller during `executeCode`. -/
inductive Msg where
  | stdoutMsg (id : String) (message : String)
  | stderrMsg (id : String) (message : String)
  | resultMsg (id : String) (state : CellState)
deriving DecidableEq

/-- Whether a message is the terminal `result` notification. -/
def isResultMsg : Msg → Bool
  | .resultMsg _ _ => true
  | _ => false

/-- The streaming message posted by an output callback. -/
def chunkMsg (id : String) : Chunk → Msg
  | .out m => .stdoutMsg id m
  | .err m => .stderrMsg id m

/-- The cell record when `executeCode` finishes.  `outcome` is the combined
result of `loadPackagesFromImports` + `runPythonAsync`: `Except.ok v` yields
`result := v, status := completed`; `Except.error e` (where `e` is the
JavaScript `String(error)` text) runs the catch block, which sets status
`error` and then appends a newline plus the fault text to stderr. -/
def finalCell (id : String) (chunks : List Chunk)
    (outcome : Except String String) : CellState :=
  let c := cellAfterChunks id chunks
  match outcome with
  | .ok v => { c with result := some v, status := .completed }
  | .error e => { c with status := .error, stderr := c.stderr ++ "\n" ++ e }

/-- Source: `executeCode(id, code)`.  The catch clause swallows every fault,
so the function always returns normally; the `finally` block posts exactly one
terminal `result` message carrying the cell record.  Returns the cells map
after the call (net effect: the record for `id` is wholly replaced) together
with the ordered list of messages posted.  (The `[package]`-prefixed progress
messages of `loadPackagesFromImports` are not modelled; they do not touch the
cell record.) -/
def executeCode (cells : Cells) (id : String) (chunks : List Chunk)
    (outcome : Except String String) : Cells × List Msg :=
  let fin := finalCell id chunks outcome
  (cellsInsert cells id fin, chunks.map (chunkMsg id) ++ [.resultMsg id fin])

/-- The successive values taken by `self.cells[id]` during one `executeCode`
call: the freshly created record, the record after each output callback, and
the records after each mutation of the terminal path (the source sets
`result` then `status` on success, and `status` then `stderr` on error). -/
def executeTrace (id : String) (chunks : List Chunk)
    (outcome : Except String String) : List CellState :=
  let snaps := chunks.scanl chunkStep (initCell id)
  let c := cellAfterChunks id chunks
  snaps ++
    match outcome with
    | .ok v => [{ c with result := some v },
                { c with result := some v, status := .completed }]
    | .error e => [{ c with status := .error },
                   { c with status := .error, stderr := c.stderr ++ "\n" ++ e }]

/-- The status component of a trace. -/
def statusesOf (tr : List CellState) : List Status :=
  tr.map CellState.status

/-- Collapse consecutive duplicates: the distinct statuses an observer
polling the record would see, in order. -/
def dedupConsec : List Status → List Status
  | [] => []
  | [a] => [a]
  | a :: b :: rest =>
    if a = b then dedupConsec (b :: rest) else a :: dedupConsec (b :: rest)

/-- Position of a status along the lifecycle `idle → running → terminal`. -/
def statusRank : Status → Nat
  | .idle => 0
  | .running => 1
  | .completed => 2
  | .error => 2

/-- Lifecycle order on statuses: no transition may lower the rank. -/
def statusLE (a b : Status) : Prop := statusRank a ≤ statusRank b

instance : DecidableRel statusLE :=
  fun a b => Nat.decLe (statusRank a) (statusRank b)

/-! ## PackageInstaller: the worker's `preloadPackages` and the utility
module's `installMissingPackages` / `setupCachedPackageLoader` -/

/-- Values the ambient fetch variable can hold. -/
inductive FetchSlot where
  | original
  /-- The capture interceptor installed inside the `loadPackage` wrapper of
  `setupCachedPackageLoader`. -/
  | interceptor
  /-- The logging wrapper `preloadPackages` assigns to `self.fetch`. -/
  | workerWrapper
deriving DecidableEq

/-- The worker-global environment as far as fetch interception is concerned:
the current value of the ambient fetch variable. -/
structure Env where
  fetchSlot : FetchSlot
deriving DecidableEq

/-- The `BATCH_SIZE = 3` grouping of `preloadPackages`: successive
`slice(i, i + 3)` groups of the list, in order. -/
def chunks3 {α : Type} : List α → List (List α)
  | [] => []
  | [a] => [[a]]
  | [a, b] => [[a, b]]
  | a :: b :: c :: rest => [a, b, c] :: chunks3 rest

/-- The sequential `await micropip.install(batch)` loop.  `oracle` says
whether a given install call succeeds; a failing call throws, so the loop
stops there.  Returns the install calls actually issued (in issue order,
including the failing one) and whether the loop ran to completion. -/
def runBatches (oracle : List String → Bool) :
    List (List String) → List (List String) × Bool
  | [] => ([], true)
  | b :: rest =>
    if oracle b then
      let p := runBatches oracle rest
      (b :: p.1, p.2)
    else ([b], false)

/-- Observable effects of one `preloadPackages` call. -/
structure PreloadResult where
  /-- Value of `self.fetch` when the call returns. -/
  fetchSlot : FetchSlot
  /-- The `micropip.install` calls issued, in order (each awaited before the
  next begins; the list order is the issue order). -/
  installCalls : List (List String)
  /-- Value of `self.packagesLoaded` when the call returns. -/
  packagesLoaded : Bool
  /-- Names passed to `markPackageAsFailed` during the call. -/
  failedMarked : List String
deriving DecidableEq

/-- Source: the worker's `preloadPackages`.  If `self.packagesLoaded` it
returns at once.  Otherwise it assigns the logging wrapper to `self.fetch`
(the original is captured in a local but never written back anywhere in the
function), filters the package list against the runtime's lowercased
installed-module set, and runs the batch loop.  The whole body is one
`try/catch` whose catch only logs: a batch failure therefore aborts the
remaining batches, and the worker module never calls `markPackageAsFailed`
(it does not import the registry), so `failedMarked` is always empty.
Inputs: the `packagesLoaded` flag, the fetched package list, the runtime's
installed-module set (lowercased), and the per-call install oracle. -/
def preloadPackages (alreadyLoaded : Bool) (packages : List String)
    (installedModules : List String) (oracle : List String → Bool) :
    PreloadResult :=
  if alreadyLoaded then ⟨.original, [], true, []⟩
  else
    let packagesToInstall :=
      packages.filter (fun p => !(installedModules.contains p.toLower))
    let p := runBatches oracle (chunks3 packagesToInstall)
    ⟨.workerWrapper, p.1, p.2, []⟩

/-- Observable effects of one `installMissingPackages` call. -/
structure InstallOutcome where
  /-- The `micropip.install` calls issued, in order. -/
  installCalls : List (List String)
  /-- Names passed to `markPackageAsFailed` during the call (the source
  never calls it). -/
  failedMarked : List String
deriving DecidableEq

/-- Source: the utility module's `installMissingPackages(pyodide, packages)`.
It computes the missing list via `checkMissingPackages` (total — its errors
are caught internally), returns at once when nothing is missing, and
otherwise installs the missing list; if anything in the try block throws, the
catch falls back to a single `micropip.install(packages)` call with the full
original list, whose own failure is only logged.  No registry marking occurs
anywhere in the function. -/
def installMissingPackages
    (query : List String → Except String (List String))
    (oracle : List String → Bool) (packages : List String) : InstallOutcome :=
  let missing := checkMissingPackages query (some packages)
  if missing.isEmpty then ⟨[], []⟩
  else if oracle missing then ⟨[missing], []⟩
  else ⟨[missing, packages], []⟩

/-- Actions performed by the `loadPackage` wrapper that
`setupCachedPackageLoader` installs. -/
inductive LoadAction where
  /-- A `console.log` call. -/
  | log (msg : String)
  /-- Registering a package with the runtime from cached bytes.  The wrapper
  never performs this action: its cached branch only logs. -/
  | registerWithRuntime (pname : String) (data : Wheel)
  /-- The single `originalLoadPackage.call(pyodide, packagesToLoad)` call. -/
  | netInstall (names : List String)
deriving DecidableEq

/-- Whether an action registers a package with the runtime. -/
def LoadAction.isRegisterAction : LoadAction → Bool
  | .registerWithRuntime _ _ => true
  | _ => false

/-- Source: the wrapper body of `setupCachedPackageLoader`.  For each
requested name it consults `getCachedPackageWheel`; names with a cached
wheel are pushed onto `cachedPackages` and logged ("Using cached package"),
the rest onto `packagesToLoad`.  If `packagesToLoad` is non-empty, the
original `loadPackage` is called once with exactly that list.  `cache` is
the lookup into the wheel store. -/
def pyodideLoadPackage (cache : String → Option Wheel)
    (names : List String) : List LoadAction :=
  let cached := names.filter (fun p => (cache p).isSome)
  let toLoad := names.filter (fun p => (cache p).isNone)
  cached.map (fun p => .log ("Using cached package " ++ p)) ++
    (if toLoad.isEmpty then [] else [.netInstall toLoad])

/-- Source: the fetch-slot discipline of the same wrapper.  When there are
packages to load it saves `window.fetch` into `originalFetch`, assigns the
capture interceptor, and runs `originalLoadPackage` inside
`try { ... } finally { window.fetch = originalFetch }`; the `finally` runs on
both the success and the throw path, and the exception (if any) propagates
after restoration.  Returns the environment after the call together with the
propagated outcome. -/
def wrappedLoadPackageFetch (toLoad : List String)
    (bodyOutcome : Except String Unit) (e : Env) : Env × Except String Unit :=
  if toLoad.isEmpty then (e, .ok ())
  else
    let orig := e.fetchSlot
    let during : Env := { e with fetchSlot := .interceptor }
    let after : Env := { during with fetchSlot := orig }
    (after, bodyOutcome)

/-- Source: the install-call slice of the utility module's
`preloadPyodidePackages(pyodide, packages)` with its default options
(`forceReload` false): it computes the missing names via
`checkMissingPackages`, returns without installing when none are missing,
and otherwise issues one single `micropip.install` call carrying the whole
missing list — this module has no batching.  Returns the install calls
issued, in order. -/
def preloadPyodidePackagesCalls
    (query : List String → Except String (List String))
    (packages : List String) : List (List String) :=
  let missing := checkMissingPackages query (some packages)
  if missing.isEmpty then [] else [missing]

/-- Oracle failing exactly the batch `["a", "b", "c"]`. -/
def c1BadOracle : List String → Bool := fun b => !(b == ["a", "b", "c"])

/-- Wheel cache lookup with exactly `numpy` cached. -/
def c3Cache : String → Option Wheel := fun n =>
  if n = "numpy" then some [1, 2, 3] else none

/-- Seven lowercase package names, none satisfied in the scenarios below. -/
def c8Names : List String :=
  ["numpy", "pandas", "requests", "micropip", "packaging",
   "beautifulsoup4", "scipy"]

/-! ## Theorems -/

/-- Helper: no registry operation adds to `loading`, so an initially empty
`loading` set stays empty. -/
theorem applyRegOps_loading_nil (ops : List RegOp) (r : PackageRegistry)
    (h : r.loading = []) : (applyRegOps ops r).loading = [] := by
  induction ops generalizing r with
  | nil => exact h
  | cons op rest ih =>
    have hstep : (applyRegOp r op).loading = [] := by
      cases op <;> simp [applyRegOp, markPackageAsLoaded, markPackageAsFailed,
        setDelete, h]
    exact ih (applyRegOp r op) hstep

/-- C2 counterexample: after `markPackageAsFailed "x"` followed by
`markPackageAsLoaded "x"` the name is simultaneously in `loaded` and in
`failed`, so the claim that a name is in at most one of the three sets after
each operation is false (`markPackageAsLoaded` does not remove from
`failed`). -/
theorem c2_counterexample :
    "x" ∈ (markPackageAsLoaded (markPackageAsFailed initialRegistry "x")
            "x").loaded
    ∧ "x" ∈ (markPackageAsLoaded (markPackageAsFailed initialRegistry "x")
            "x").failed := by
  decide

/-- C2 (amended): over any operation sequence from the initial registry the
`loading` set stays empty (no source operation adds to it, and there is no
`markLoading` in the code), so a name is never in `loading` together with
another set; each marking operation removes the name from `loading` and adds
it to its target set; but `loaded` and `failed` are not kept disjoint. -/
theorem c2_registry_sets (ops : List RegOp) (r : PackageRegistry)
    (n : String) :
    (applyRegOps ops initialRegistry).loading = []
    ∧ n ∉ (markPackageAsLoaded r n).loading
    ∧ n ∈ (markPackageAsLoaded r n).loaded
    ∧ n ∉ (markPackageAsFailed r n).loading
    ∧ n ∈ (markPackageAsFailed r n).failed := by
  refine ⟨applyRegOps_loading_nil ops initialRegistry rfl, ?_, ?_, ?_, ?_⟩
  · simp [markPackageAsLoaded, setDelete, List.mem_filter]
  · unfold markPackageAsLoaded setAdd
    simp only
    split
    · assumption
    · exact List.mem_cons_self ..
  · simp [markPackageAsFailed, setDelete, List.mem_filter]
  · unfold markPackageAsFailed setAdd
    simp only
    split
    · assumption
    · exact List.mem_cons_self ..

/-- C9 (confirmed): a successful `cachePackageWheel(name, url, payload)`
followed by `getCachedPackageWheel(name)` returns the identical payload
bytes. -/
theorem c9_wheel_roundtrip (store : WheelStore) (name url : String)
    (data : Wheel) (now : Nat) :
    getCachedPackageWheel (cachePackageWheel store name url data now) name
      = some data := by
  simp [getCachedPackageWheel, cachePackageWheel, storePut, storeGet,
    List.find?]

/-- C10 (confirmed): `checkMissingPackages` returns `[]` for an absent or
empty package list, and when the runtime query throws it returns the entire
requested list unchanged instead of propagating the error. -/
theorem c10_check_missing_fallback
    (query : List String → Except String (List String)) (l : List String)
    (e : String) :
    checkMissingPackages query none = []
    ∧ checkMissingPackages query (some []) = []
    ∧ (l ≠ [] → query (l.map String.toLower) = Except.error e →
        checkMissingPackages query (some l) = l) := by
  refine ⟨rfl, rfl, fun hl hq => ?_⟩
  cases l with
  | nil => exact absurd rfl hl
  | cons a t =>
    simp only [List.map_cons] at hq
    simp [checkMissingPackages, hq]

/-- C10 witness: a concrete non-empty request against a throwing query
returns the request unchanged. -/
theorem c10_check_missing_fallback_witness :
    checkMissingPackages (fun _ => Except.error "boom")
      (some ["NumPy", "pandas"]) = ["NumPy", "pandas"] :=
  (c10_check_missing_fallback (fun _ => Except.error "boom")
    ["NumPy", "pandas"] "boom").2.2 (by decide) rfl

/-- C7 counterexample: on a non-success HTTP status the utility module's
`fetchPyodidePackages` returns its own 6-item default list, not the 9-item
worker list the claim names, so the claim is false for this cited
implementation (the cache is indeed left unchanged). -/
theorem c7_counterexample :
    (fetchPyodidePackagesUtil .absent 0 (.response false none)).1
      = DEFAULT_PACKAGES_UTIL
    ∧ DEFAULT_PACKAGES_UTIL.length = 6
    ∧ (fetchPyodidePackagesUtil .absent 0 (.response false none)).1.length ≠ 9
    ∧ (fetchPyodidePackagesUtil .absent 0 (.response false none)).1
        ≠ DEFAULT_PACKAGES_WORKER
    ∧ (fetchPyodidePackagesUtil .absent 0 (.response false none)).2
        = .absent := by
  decide

/-- C7 (amended): with no usable cached list, a network error, a non-success
HTTP status, or a body whose JSON parsing throws makes each version return
its own static default list (9 items in the worker module, 6 in the utility
module) without touching the list cache; but a body that parses and merely
lacks a `packages` field makes both versions return the default list and
additionally write it to the cache as a new entry. -/
theorem c7_fetch_fallback (now : Nat) (j : Option (Option (List String))) :
    fetchPyodidePackagesWorker none now .netError
      = (DEFAULT_PACKAGES_WORKER, none)
    ∧ fetchPyodidePackagesWorker none now (.response false j)
      = (DEFAULT_PACKAGES_WORKER, none)
    ∧ fetchPyodidePackagesWorker none now (.response true none)
      = (DEFAULT_PACKAGES_WORKER, none)
    ∧ fetchPyodidePackagesWorker none now (.response true (some none))
      = (DEFAULT_PACKAGES_WORKER, some ⟨now, DEFAULT_PACKAGES_WORKER⟩)
    ∧ fetchPyodidePackagesUtil .absent now .netError
      = (DEFAULT_PACKAGES_UTIL, .absent)
    ∧ fetchPyodidePackagesUtil .absent now (.response false j)
      = (DEFAULT_PACKAGES_UTIL, .absent)
    ∧ fetchPyodidePackagesUtil .absent now (.response true none)
      = (DEFAULT_PACKAGES_UTIL, .absent)
    ∧ fetchPyodidePackagesUtil .absent now (.response true (some none))
      = (DEFAULT_PACKAGES_UTIL, .entry now DEFAULT_PACKAGES_UTIL)
    ∧ DEFAULT_PACKAGES_WORKER.length = 9
    ∧ DEFAULT_PACKAGES_UTIL.length = 6 := by
  refine ⟨rfl, ?_, rfl, rfl, rfl, ?_, rfl, rfl, rfl, rfl⟩
  · cases j <;> rfl
  · cases j <;> rfl

/-- C1 counterexample: with packages `a b c d` (batches `[a,b,c]`, `[d]`) and
the first batch's install failing, `preloadPackages` never issues the second
batch (the exception lands in the function's top-level catch) and marks no
name failed — contradicting the claim that the batch's names are marked
failed and installation continues with the next batch. -/
theorem c1_counterexample :
    (preloadPackages false ["a", "b", "c", "d"] [] c1BadOracle).installCalls
      = [["a", "b", "c"]]
    ∧ ["d"] ∉ (preloadPackages false ["a", "b", "c", "d"] []
        c1BadOracle).installCalls
    ∧ (preloadPackages false ["a", "b", "c", "d"] []
        c1BadOracle).failedMarked = [] := by
  decide

/-- C1 (amended): `preloadPackages` never marks any name failed, and a
failing batch aborts the loop — the failing batch is the last install call
issued.  Separately, `installMissingPackages` reacts to a failing install of
the missing list with exactly one fallback call installing the full original
`packages` list; it too marks nothing failed (its fallback failure is only
logged). -/
theorem c1_batch_failure_behavior (al : Bool) (pkgs installed : List String)
    (oracle : List String → Bool) (b : List String)
    (rest : List (List String))
    (query : List String → Except String (List String))
    (oracle2 : List String → Bool) (packages : List String) :
    (preloadPackages al pkgs installed oracle).failedMarked = []
    ∧ (oracle b = false → runBatches oracle (b :: rest) = ([b], false))
    ∧ (checkMissingPackages query (some packages) ≠ [] →
        oracle2 (checkMissingPackages query (some packages)) = false →
        installMissingPackages query oracle2 packages
          = ⟨[checkMissingPackages query (some packages), packages], []⟩) := by
  refine ⟨?_, fun hb => ?_, fun hne hfail => ?_⟩
  · cases al <;> rfl
  · simp [runBatches, hb]
  · simp [installMissingPackages, List.isEmpty_iff, hne, hfail]

/-- C1 witness: concrete instances discharging the hypotheses of the amended
theorem. -/
theorem c1_batch_failure_behavior_witness :
    (preloadPackages false ["a"] [] (fun _ => false)).failedMarked = []
    ∧ runBatches (fun _ => false) [["a"], ["b"]] = ([["a"]], false)
    ∧ installMissingPackages (fun _ => Except.ok ["a", "b"]) (fun _ => false)
        ["a", "b"] = ⟨[["a", "b"], ["a", "b"]], []⟩ := by
  refine ⟨?_, ?_, ?_⟩
  · exact (c1_batch_failure_behavior false ["a"] [] (fun _ => false) []
      [] (fun _ => Except.ok []) (fun _ => false) []).1
  · exact (c1_batch_failure_behavior false [] [] (fun _ => false) ["a"]
      [["b"]] (fun _ => Except.ok []) (fun _ => false) []).2.1 rfl
  · exact (c1_batch_failure_behavior false [] [] (fun _ => false) []
      [] (fun _ => Except.ok ["a", "b"]) (fun _ => false)
      ["a", "b"]).2.2 (by decide) rfl

/-- C8 counterexample: given seven names with none satisfied, the utility
module's `preloadPyodidePackages` — one of the two installers the claim
covers — issues exactly one install call carrying all seven names, not three
batch calls. -/
theorem c8_counterexample :
    preloadPyodidePackagesCalls (fun _ => Except.ok c8Names) c8Names
      = [c8Names]
    ∧ (preloadPyodidePackagesCalls (fun _ => Except.ok c8Names)
        c8Names).length = 1
    ∧ (preloadPyodidePackagesCalls (fun _ => Except.ok c8Names)
        c8Names).length ≠ 3
    ∧ c8Names.length = 7 := by
  decide

/-- C8 (amended): the worker's `preloadPackages`, given seven names to
install with none already satisfied, issues exactly three `micropip.install`
calls of sizes 3, 3 and 1, in the original order (the list order of
`installCalls` is the issue order, and the loop awaits each call before
issuing the next); the utility module's `preloadPyodidePackages`, however,
issues one single install call carrying every missing name. -/
theorem c8_batch_sizes (a b c d e f g : String)
    (query : List String → Except String (List String))
    (packages : List String) :
    (preloadPackages false [a, b, c, d, e, f, g] []
        (fun _ => true)).installCalls = [[a, b, c], [d, e, f], [g]]
    ∧ ((preloadPackages false [a, b, c, d, e, f, g] []
        (fun _ => true)).installCalls.map List.length) = [3, 3, 1]
    ∧ (preloadPackages false [a, b, c, d, e, f, g] []
        (fun _ => true)).installCalls.flatten = [a, b, c, d, e, f, g]
    ∧ (checkMissingPackages query (some packages) ≠ [] →
        preloadPyodidePackagesCalls query packages
          = [checkMissingPackages query (some packages)]) := by
  refine ⟨rfl, rfl, rfl, fun hne => ?_⟩
  simp [preloadPyodidePackagesCalls, List.isEmpty_iff, hne]

/-- C8 witness: the amended theorem applied at a concrete seven-name list
and a concrete everything-missing query. -/
theorem c8_batch_sizes_witness :
    preloadPyodidePackagesCalls
        (fun _ => Except.ok ["n1", "n2", "n3", "n4", "n5", "n6", "n7"])
        ["n1", "n2", "n3", "n4", "n5", "n6", "n7"]
      = [["n1", "n2", "n3", "n4", "n5", "n6", "n7"]] :=
  (c8_batch_sizes "a" "b" "c" "d" "e" "f" "g"
    (fun _ => Except.ok ["n1", "n2", "n3", "n4", "n5", "n6", "n7"])
    ["n1", "n2", "n3", "n4", "n5", "n6", "n7"]).2.2.2 (by decide)

/-- C3 counterexample: with `numpy` cached and `pandas` not, the wrapper's
action trace is a log for `numpy` and one network install for `pandas` only —
no action registers `numpy` with the runtime from the cached bytes, so the
claim's registration half is false (the cached branch only logs). -/
theorem c3_counterexample :
    pyodideLoadPackage c3Cache ["numpy", "pandas"]
      = [.log "Using cached package numpy", .netInstall ["pandas"]]
    ∧ (pyodideLoadPackage c3Cache ["numpy", "pandas"]).all
        (fun a => !a.isRegisterAction) = true := by
  decide

/-- C3 (amended): a name with a cached wheel record is never part of the
network install call (only uncached names are passed to the original
`loadPackage`), but no action of the wrapper registers any package with the
runtime — the cached branch only logs. -/
theorem c3_cached_skip (cache : String → Option Wheel) (names : List String)
    (p : String) (batch : List String) :
    ((cache p).isSome = true →
      LoadAction.netInstall batch ∈ pyodideLoadPackage cache names →
      p ∉ batch)
    ∧ (∀ a ∈ pyodideLoadPackage cache names, a.isRegisterAction = false) := by
  constructor
  · intro hs hmem hp
    simp only [pyodideLoadPackage] at hmem
    rcases List.mem_append.1 hmem with h | h
    · rcases List.mem_map.1 h with ⟨x, _, hx⟩
      exact absurd hx (by simp)
    · by_cases he : (names.filter (fun q => (cache q).isNone)).isEmpty
      · simp [he] at h
      · simp [he] at h
        rw [h] at hp
        have h2 := (List.mem_filter.1 hp).2
        rw [Option.isNone_iff_eq_none] at h2
        rw [h2] at hs
        simp at hs
  · intro a ha
    simp only [pyodideLoadPackage] at ha
    rcases List.mem_append.1 ha with h | h
    · rcases List.mem_map.1 h with ⟨x, _, hx⟩
      rw [← hx]
      rfl
    · by_cases he : (names.filter (fun q => (cache q).isNone)).isEmpty
      · simp [he] at h
      · simp [he] at h
        rw [h]
        rfl

/-- C3 witness: the amended theorem applied at the concrete cache. -/
theorem c3_cached_skip_witness :
    (c3Cache "numpy").isSome = true
    ∧ LoadAction.netInstall ["pandas"]
        ∈ pyodideLoadPackage c3Cache ["numpy", "pandas"]
    ∧ "numpy" ∉ ["pandas"] := by
  refine ⟨by decide, by decide, ?_⟩
  exact (c3_cached_skip c3Cache ["numpy", "pandas"] "numpy" ["pandas"]).1
    (by decide) (by decide)

/-- C4 counterexample: after a `preloadPackages` call the worker's ambient
fetch still holds the logging wrapper, not the original fetch — the
interception is left installed after the install call returns. -/
theorem c4_counterexample :
    (preloadPackages false ["numpy"] [] (fun _ => true)).fetchSlot
      = FetchSlot.workerWrapper
    ∧ FetchSlot.workerWrapper ≠ FetchSlot.original := by
  decide

/-- C4 (amended): the `loadPackage` wrapper of `setupCachedPackageLoader`
restores the saved fetch value exactly, on the success path and on the throw
path alike (the body's exception propagates only after restoration); but the
worker's `preloadPackages` always finishes with the logging wrapper still
installed in `self.fetch`. -/
theorem c4_fetch_restore (toLoad : List String)
    (outcome : Except String Unit) (env : Env)
    (pkgs installed : List String) (oracle : List String → Bool) :
    (wrappedLoadPackageFetch toLoad outcome env).1.fetchSlot = env.fetchSlot
    ∧ (wrappedLoadPackageFetch toLoad outcome env).2
        = (if toLoad.isEmpty then Except.ok () else outcome)
    ∧ (preloadPackages false pkgs installed oracle).fetchSlot
        = FetchSlot.workerWrapper := by
  refine ⟨?_, ?_, rfl⟩
  · unfold wrappedLoadPackageFetch
    split <;> rfl
  · unfold wrappedLoadPackageFetch
    split <;> rfl

/-- Helper: output callbacks never change the status field. -/
theorem chunkStep_status (c : CellState) (ch : Chunk) :
    (chunkStep c ch).status = c.status := by
  cases ch <;> rfl

/-- Helper: the status after all output callbacks is the initial status. -/
theorem foldl_chunkStep_status (chunks : List Chunk) (c : CellState) :
    (chunks.foldl chunkStep c).status = c.status := by
  induction chunks generalizing c with
  | nil => rfl
  | cons ch rest ih =>
    rw [List.foldl_cons, ih, chunkStep_status]

/-- Helper: the stderr buffer after the callbacks is the accumulated error
chunks appended to the starting buffer. -/
theorem foldl_chunkStep_stderr (chunks : List Chunk) (c : CellState) :
    (chunks.foldl chunkStep c).stderr = stderrAccumFrom c.stderr chunks := by
  induction chunks generalizing c with
  | nil => rfl
  | cons ch rest ih =>
    cases ch with
    | out m => rw [List.foldl_cons, ih]; rfl
    | err m => rw [List.foldl_cons, ih]; rfl

/-- Helper: every intermediate record of the callback phase has the initial
status. -/
theorem scanl_chunkStep_status (chunks : List Chunk) (c : CellState) :
    (List.scanl chunkStep c chunks).map CellState.status
      = List.replicate (chunks.length + 1) c.status := by
  induction chunks generalizing c with
  | nil => rfl
  | cons ch rest ih =>
    simp [List.scanl_cons, ih, chunkStep_status, List.replicate_succ]

/-- Helper: streaming chunk messages are never `result` messages. -/
theorem filter_result_chunkMsgs (id : String) (chunks : List Chunk) :
    (chunks.map (chunkMsg id)).filter isResultMsg = [] := by
  induction chunks with
  | nil => rfl
  | cons ch rest ih => cases ch <;> simp [chunkMsg, isResultMsg, ih]

/-- Helper: inserting a record for an id makes lookup of that id return
exactly that record. -/
theorem cellsLookup_insert (cells : Cells) (id : String) (c : CellState) :
    cellsLookup (cellsInsert cells id c) id = some c := by
  unfold cellsLookup cellsInsert
  rw [List.find?_cons_of_pos _ (by simp)]
  rfl

/-- C5 (confirmed): on success `executeCode` sets `result` and status
`completed`; on a raised fault it sets status `error` and the cell's stderr
ends with the appended fault text; in both cases the posted messages contain
exactly one terminal `result` notification, carrying the final record for
the id, and the cells map holds that same record (the fault is consumed by
the catch clause — `executeCode` always returns normally). -/
theorem c5_execute_terminal (cells : Cells) (id : String)
    (chunks : List Chunk) (v e : String) :
    (finalCell id chunks (Except.ok v)).status = Status.completed
    ∧ (finalCell id chunks (Except.ok v)).result = some v
    ∧ (finalCell id chunks (Except.error e)).status = Status.error
    ∧ (finalCell id chunks (Except.error e)).stderr
        = stderrAccumFrom "" chunks ++ "\n" ++ e
    ∧ (executeCode cells id chunks (Except.ok v)).2.filter isResultMsg
        = [Msg.resultMsg id (finalCell id chunks (Except.ok v))]
    ∧ (executeCode cells id chunks (Except.error e)).2.filter isResultMsg
        = [Msg.resultMsg id (finalCell id chunks (Except.error e))]
    ∧ cellsLookup (executeCode cells id chunks (Except.ok v)).1 id
        = some (finalCell id chunks (Except.ok v))
    ∧ cellsLookup (executeCode cells id chunks (Except.error e)).1 id
        = some (finalCell id chunks (Except.error e)) := by
  refine ⟨rfl, rfl, rfl, ?_, ?_, ?_, ?_, ?_⟩
  · show (cellAfterChunks id chunks).stderr ++ "\n" ++ e = _
    rw [cellAfterChunks, foldl_chunkStep_stderr]
    rfl
  · simp [executeCode, List.filter_append, filter_result_chunkMsgs,
      isResultMsg]
  · simp [executeCode, List.filter_append, filter_result_chunkMsgs,
      isResultMsg]
  · exact cellsLookup_insert cells id _
  · exact cellsLookup_insert cells id _

/-- Helper: peel one element off a replicate block in front of an append. -/
theorem replicate_succ_append {α : Type} (n : Nat) (a : α) (l : List α) :
    List.replicate (n + 1) a ++ l = List.replicate n a ++ a :: l := by
  rw [List.replicate_succ', List.append_assoc]
  rfl

/-- Helper: a lifecycle-ordered chain stays ordered when a block of
`running` states is prepended to a chain starting at `running`. -/
theorem chain'_statusLE_replicate (n : Nat) (t : List Status)
    (h : List.Chain' statusLE (Status.running :: t)) :
    List.Chain' statusLE
      (List.replicate n Status.running ++ Status.running :: t) := by
  induction n generalizing t with
  | zero => simpa using h
  | succ k ih =>
    rw [replicate_succ_append]
    exact ih (Status.running :: t) (List.chain'_cons.2 ⟨Nat.le_refl _, h⟩)

/-- Helper: status trace of a successful `executeCode` call. -/
theorem statuses_ok (id : String) (chunks : List Chunk) (v : String) :
    statusesOf (executeTrace id chunks (Except.ok v))
      = List.replicate (chunks.length + 1) Status.running
        ++ [Status.running, Status.completed] := by
  simp [statusesOf, executeTrace, List.map_append, scanl_chunkStep_status,
    foldl_chunkStep_status, cellAfterChunks, initCell]

/-- Helper: status trace of a failing `executeCode` call: the record is
already `error` when the fault text is appended to stderr. -/
theorem statuses_err (id : String) (chunks : List Chunk) (e : String) :
    statusesOf (executeTrace id chunks (Except.error e))
      = List.replicate (chunks.length + 1) Status.running
        ++ [Status.error, Status.error] := by
  simp [statusesOf, executeTrace, List.map_append, scanl_chunkStep_status,
    foldl_chunkStep_status, cellAfterChunks, initCell]

/-- C6 (amended): within one `executeCode` call the record starts directly
in `running` (`idle` is never observed), the status sequence is a block of
`running` followed by the terminal states, and it never regresses in the
lifecycle order; in the error path one further record change (the stderr
append) happens after the terminal status is set; and a new call with the
same id replaces the record wholesale, whatever the map held before. -/
theorem c6_status_monotonic (cells : Cells) (id : String)
    (chunks : List Chunk) (v e : String) :
    statusesOf (executeTrace id chunks (Except.ok v))
      = List.replicate (chunks.length + 1) Status.running
        ++ [Status.running, Status.completed]
    ∧ statusesOf (executeTrace id chunks (Except.error e))
      = List.replicate (chunks.length + 1) Status.running
        ++ [Status.error, Status.error]
    ∧ List.Chain' statusLE (statusesOf (executeTrace id chunks
        (Except.ok v)))
    ∧ List.Chain' statusLE (statusesOf (executeTrace id chunks
        (Except.error e)))
    ∧ Status.idle ∉ statusesOf (executeTrace id chunks (Except.ok v))
    ∧ Status.idle ∉ statusesOf (executeTrace id chunks (Except.error e))
    ∧ cellsLookup (executeCode cells id chunks (Except.ok v)).1 id
        = some (finalCell id chunks (Except.ok v)) := by
  refine ⟨statuses_ok id chunks v, statuses_err id chunks e, ?_, ?_, ?_, ?_,
    cellsLookup_insert cells id _⟩
  · rw [statuses_ok]
    exact chain'_statusLE_replicate (chunks.length + 1) [Status.completed]
      (List.chain'_cons.2 ⟨by decide, List.chain'_singleton _⟩)
  · rw [statuses_err, replicate_succ_append]
    exact chain'_statusLE_replicate chunks.length [Status.error, Status.error]
      (List.chain'_cons.2 ⟨by decide,
        List.chain'_cons.2 ⟨by decide, List.chain'_singleton _⟩⟩)
  · rw [statuses_ok]
    simp [List.mem_append, List.mem_replicate]
  · rw [statuses_err]
    simp [List.mem_append, List.mem_replicate]

/-- C6 counterexample: for a concrete failing execution the distinct
observed statuses are `[running, error]`, which is a prefix neither of
`[idle, running, completed]` nor of `[idle, running, error]` (the record is
created directly in `running`); moreover the trace keeps changing after the
terminal status is set — the record at position 1 (status already `error`)
differs from the record at position 2 (fault text appended) without being
replaced. -/
theorem c6_counterexample :
    dedupConsec (statusesOf (executeTrace "t1" [] (Except.error "boom")))
      = [Status.running, Status.error]
    ∧ ¬ ([Status.running, Status.error]
          <+: [Status.idle, Status.running, Status.completed])
    ∧ ¬ ([Status.running, Status.error]
          <+: [Status.idle, Status.running, Status.error])
    ∧ (statusesOf (executeTrace "t1" [] (Except.error "boom")))[1]?
        = some Status.error
    ∧ (executeTrace "t1" [] (Except.error "boom"))[1]?
        ≠ (executeTrace "t1" [] (Except.error "boom"))[2]? := by
  decide
